import Mathlib

set_option maxHeartbeats 1000000

/-!
Verification of the cell-broadcast channel configurator
(GonkCellBroadcastConfigService / GonkCellBroadcastConfigHandler) and of the
RIL / Wi-Fi adapter layer (nsRilWorker / WifiNative) of kai-store/gecko-b2g.

The definitions below are shallow embeddings of the source functions; the
theorems at the end of the file settle the frozen claims about them.
-/

/-
==========================================================================
Part 1.  Cell-broadcast channel configurator (nsWifiEvent.cpp, JS part)
==========================================================================
-/

/-- Message-id / service-category constants of nsIGonkCellBroadcastConfigService.
Modelled from the spec: the interface definition file is not among the sources;
the configurator only builds half-open ranges from these named constants, so
they are kept as abstract natural numbers. -/
structure CBConsts where
  SERVICE_CATEGORY_CMAS_PRESIDENTIAL_LEVEL_ALERT : Nat
  SERVICE_CATEGORY_CMAS_EXTREME_THREAT : Nat
  SERVICE_CATEGORY_CMAS_SEVERE_THREAT : Nat
  SERVICE_CATEGORY_CMAS_CHILD_ABDUCTION_EMERGENCY : Nat
  SERVICE_CATEGORY_CMAS_TEST_MESSAGE : Nat
  MESSAGE_ID_ETWS_EARTHQUAKE_WARNING : Nat
  MESSAGE_ID_ETWS_EARTHQUAKE_AND_TSUNAMI_WARNING : Nat
  MESSAGE_ID_ETWS_OTHER_EMERGENCY_TYPE : Nat
  MESSAGE_ID_ETWS_TEST_MESSAGE : Nat
  MESSAGE_ID_CMAS_ALERT_PRESIDENTIAL_LEVEL : Nat
  MESSAGE_ID_CMAS_ALERT_EXTREME_EXPECTED_OBSERVED : Nat
  MESSAGE_ID_CMAS_ALERT_SEVERE_EXPECTED_LIKELY : Nat
  MESSAGE_ID_CMAS_ALERT_CHILD_ABDUCTION_EMERGENCY : Nat
  MESSAGE_ID_CMAS_ALERT_REQUIRED_MONTHLY_TEST : Nat
  MESSAGE_ID_CMAS_ALERT_OPERATOR_DEFINED_USE : Nat
  MESSAGE_ID_CMAS_ALERT_PRESIDENTIAL_LEVEL_LANGUAGE : Nat
  MESSAGE_ID_CMAS_ALERT_EXTREME_IMMEDIATE_OBSERVED_LANGUAGE : Nat
  MESSAGE_ID_CMAS_ALERT_EXTREME_IMMEDIATE_LIKELY_LANGUAGE : Nat
  MESSAGE_ID_CMAS_ALERT_EXTREME_EXPECTED_OBSERVED_LANGUAGE : Nat
  MESSAGE_ID_CMAS_ALERT_SEVERE_EXPECTED_LIKELY_LANGUAGE : Nat
  MESSAGE_ID_CMAS_ALERT_CHILD_ABDUCTION_EMERGENCY_LANGUAGE : Nat
  MESSAGE_ID_CMAS_ALERT_REQUIRED_MONTHLY_TEST_LANGUAGE : Nat
  MESSAGE_ID_CMAS_ALERT_OPERATOR_DEFINED_USE_LANGUAGE : Nat

/-- The boolean customization values returned by
gCustomizationInfo.getCustomizedValue for the seven keys read by
_getCellBroadcastConfig (each field is the value of one key, defaults
already applied). -/
structure CBFlags where
  emergencyAlertsCust : Bool
  cmasExtremeCust : Bool
  cmasSevereCust : Bool
  cmasAmberCust : Bool
  etwsTestCust : Bool
  cmasTestCust : Bool
  forceDisableEtwsCmasTest : Bool

/-- A cell-broadcast configuration: the flat CDMA service-category list and the
flat GSM message-id list (each consecutive pair of pushed numbers forms one
half-open range). -/
structure CBConfig where
  cdma : List Nat
  gsm : List Nat
deriving DecidableEq

/-- GonkCellBroadcastConfigHandler._getCellBroadcastConfig, translated
statement by statement: the derived enable flags, then the fixed sequence of
pushes onto config.cdma and config.gsm. -/
def getCellBroadcastConfig (k : CBConsts) (f : CBFlags) : CBConfig :=
  let enableEmergencyAlerts := f.emergencyAlertsCust
  let enableEtwsAlerts := enableEmergencyAlerts
  let enableCmasExtremeAlerts := enableEmergencyAlerts && f.cmasExtremeCust
  let enableCmasSevereAlerts := enableEmergencyAlerts && f.cmasSevereCust
  let enableCmasAmberAlerts := enableEmergencyAlerts && f.cmasAmberCust
  let forceDisable := f.forceDisableEtwsCmasTest
  let enableEtwsTestAlerts := !forceDisable && enableEmergencyAlerts && f.etwsTestCust
  let enableCmasTestAlerts := !forceDisable && enableEmergencyAlerts && f.cmasTestCust
  let cdma : List Nat :=
    [k.SERVICE_CATEGORY_CMAS_PRESIDENTIAL_LEVEL_ALERT,
     k.SERVICE_CATEGORY_CMAS_PRESIDENTIAL_LEVEL_ALERT + 1]
    ++ cond enableCmasExtremeAlerts
         [k.SERVICE_CATEGORY_CMAS_EXTREME_THREAT,
          k.SERVICE_CATEGORY_CMAS_EXTREME_THREAT + 1] []
    ++ cond enableCmasSevereAlerts
         [k.SERVICE_CATEGORY_CMAS_SEVERE_THREAT,
          k.SERVICE_CATEGORY_CMAS_SEVERE_THREAT + 1] []
    ++ cond enableCmasAmberAlerts
         [k.SERVICE_CATEGORY_CMAS_CHILD_ABDUCTION_EMERGENCY,
          k.SERVICE_CATEGORY_CMAS_CHILD_ABDUCTION_EMERGENCY + 1] []
    ++ cond enableCmasTestAlerts
         [k.SERVICE_CATEGORY_CMAS_TEST_MESSAGE,
          k.SERVICE_CATEGORY_CMAS_TEST_MESSAGE + 1] []
  let gsm : List Nat :=
    cond enableEtwsAlerts
      [k.MESSAGE_ID_ETWS_EARTHQUAKE_WARNING,
       k.MESSAGE_ID_ETWS_EARTHQUAKE_AND_TSUNAMI_WARNING + 1] []
    ++ cond enableEtwsAlerts
         [k.MESSAGE_ID_ETWS_OTHER_EMERGENCY_TYPE,
          k.MESSAGE_ID_ETWS_OTHER_EMERGENCY_TYPE + 1] []
    ++ cond enableEtwsTestAlerts
         [k.MESSAGE_ID_ETWS_TEST_MESSAGE,
          k.MESSAGE_ID_ETWS_TEST_MESSAGE + 1] []
    ++ [k.MESSAGE_ID_CMAS_ALERT_PRESIDENTIAL_LEVEL,
        k.MESSAGE_ID_CMAS_ALERT_PRESIDENTIAL_LEVEL + 1]
    ++ cond enableCmasExtremeAlerts
         [k.MESSAGE_ID_CMAS_ALERT_EXTREME_EXPECTED_OBSERVED,
          k.MESSAGE_ID_CMAS_ALERT_SEVERE_EXPECTED_LIKELY + 1] []
    ++ cond enableCmasAmberAlerts
         [k.MESSAGE_ID_CMAS_ALERT_CHILD_ABDUCTION_EMERGENCY,
          k.MESSAGE_ID_CMAS_ALERT_CHILD_ABDUCTION_EMERGENCY + 1] []
    ++ cond enableCmasTestAlerts
         [k.MESSAGE_ID_CMAS_ALERT_REQUIRED_MONTHLY_TEST,
          k.MESSAGE_ID_CMAS_ALERT_OPERATOR_DEFINED_USE + 1] []
    ++ [k.MESSAGE_ID_CMAS_ALERT_PRESIDENTIAL_LEVEL_LANGUAGE,
        k.MESSAGE_ID_CMAS_ALERT_PRESIDENTIAL_LEVEL_LANGUAGE + 1]
    ++ cond enableCmasExtremeAlerts
         [k.MESSAGE_ID_CMAS_ALERT_EXTREME_IMMEDIATE_OBSERVED_LANGUAGE,
          k.MESSAGE_ID_CMAS_ALERT_EXTREME_IMMEDIATE_LIKELY_LANGUAGE + 1] []
    ++ cond enableCmasSevereAlerts
         [k.MESSAGE_ID_CMAS_ALERT_EXTREME_EXPECTED_OBSERVED_LANGUAGE,
          k.MESSAGE_ID_CMAS_ALERT_SEVERE_EXPECTED_LIKELY_LANGUAGE + 1] []
    ++ cond enableCmasAmberAlerts
         [k.MESSAGE_ID_CMAS_ALERT_CHILD_ABDUCTION_EMERGENCY_LANGUAGE,
          k.MESSAGE_ID_CMAS_ALERT_CHILD_ABDUCTION_EMERGENCY_LANGUAGE + 1] []
    ++ cond enableCmasTestAlerts
         [k.MESSAGE_ID_CMAS_ALERT_REQUIRED_MONTHLY_TEST_LANGUAGE,
          k.MESSAGE_ID_CMAS_ALERT_OPERATOR_DEFINED_USE_LANGUAGE + 1] []
  { cdma := cdma, gsm := gsm }

/-- One entry of the documented range table: the two endpoints of a half-open
range, included exactly when its controlling flag is true. -/
def cbRangeSeg (present : Bool) (range : List Nat) : List Nat :=
  cond present range []

/-- The documented half-open range table, written from the spec's words: the
CDMA presidential range and the GSM presidential and presidential-language
ranges are always present; every other range is present exactly when its
controlling flag is true, where the CMAS extreme / severe / amber / test flags
are the customization values gated by the master emergency-alerts flag, the
ETWS ranges are controlled by the master flag itself, and the two test flags
are additionally gated by the force-disable-test flag. Order is the fixed push
order of the code. -/
def cbExpectedConfig (k : CBConsts) (f : CBFlags) : CBConfig :=
  let master := f.emergencyAlertsCust
  let extreme := master && f.cmasExtremeCust
  let severe := master && f.cmasSevereCust
  let amber := master && f.cmasAmberCust
  let etws := master
  let etwsTest := master && f.etwsTestCust && !f.forceDisableEtwsCmasTest
  let cmasTest := master && f.cmasTestCust && !f.forceDisableEtwsCmasTest
  { cdma :=
      [k.SERVICE_CATEGORY_CMAS_PRESIDENTIAL_LEVEL_ALERT,
       k.SERVICE_CATEGORY_CMAS_PRESIDENTIAL_LEVEL_ALERT + 1]
      ++ cbRangeSeg extreme
           [k.SERVICE_CATEGORY_CMAS_EXTREME_THREAT,
            k.SERVICE_CATEGORY_CMAS_EXTREME_THREAT + 1]
      ++ cbRangeSeg severe
           [k.SERVICE_CATEGORY_CMAS_SEVERE_THREAT,
            k.SERVICE_CATEGORY_CMAS_SEVERE_THREAT + 1]
      ++ cbRangeSeg amber
           [k.SERVICE_CATEGORY_CMAS_CHILD_ABDUCTION_EMERGENCY,
            k.SERVICE_CATEGORY_CMAS_CHILD_ABDUCTION_EMERGENCY + 1]
      ++ cbRangeSeg cmasTest
           [k.SERVICE_CATEGORY_CMAS_TEST_MESSAGE,
            k.SERVICE_CATEGORY_CMAS_TEST_MESSAGE + 1],
    gsm :=
      cbRangeSeg etws
        [k.MESSAGE_ID_ETWS_EARTHQUAKE_WARNING,
         k.MESSAGE_ID_ETWS_EARTHQUAKE_AND_TSUNAMI_WARNING + 1]
      ++ cbRangeSeg etws
           [k.MESSAGE_ID_ETWS_OTHER_EMERGENCY_TYPE,
            k.MESSAGE_ID_ETWS_OTHER_EMERGENCY_TYPE + 1]
      ++ cbRangeSeg etwsTest
           [k.MESSAGE_ID_ETWS_TEST_MESSAGE, k.MESSAGE_ID_ETWS_TEST_MESSAGE + 1]
      ++ [k.MESSAGE_ID_CMAS_ALERT_PRESIDENTIAL_LEVEL,
          k.MESSAGE_ID_CMAS_ALERT_PRESIDENTIAL_LEVEL + 1]
      ++ cbRangeSeg extreme
           [k.MESSAGE_ID_CMAS_ALERT_EXTREME_EXPECTED_OBSERVED,
            k.MESSAGE_ID_CMAS_ALERT_SEVERE_EXPECTED_LIKELY + 1]
      ++ cbRangeSeg amber
           [k.MESSAGE_ID_CMAS_ALERT_CHILD_ABDUCTION_EMERGENCY,
            k.MESSAGE_ID_CMAS_ALERT_CHILD_ABDUCTION_EMERGENCY + 1]
      ++ cbRangeSeg cmasTest
           [k.MESSAGE_ID_CMAS_ALERT_REQUIRED_MONTHLY_TEST,
            k.MESSAGE_ID_CMAS_ALERT_OPERATOR_DEFINED_USE + 1]
      ++ [k.MESSAGE_ID_CMAS_ALERT_PRESIDENTIAL_LEVEL_LANGUAGE,
          k.MESSAGE_ID_CMAS_ALERT_PRESIDENTIAL_LEVEL_LANGUAGE + 1]
      ++ cbRangeSeg extreme
           [k.MESSAGE_ID_CMAS_ALERT_EXTREME_IMMEDIATE_OBSERVED_LANGUAGE,
            k.MESSAGE_ID_CMAS_ALERT_EXTREME_IMMEDIATE_LIKELY_LANGUAGE + 1]
      ++ cbRangeSeg severe
           [k.MESSAGE_ID_CMAS_ALERT_EXTREME_EXPECTED_OBSERVED_LANGUAGE,
            k.MESSAGE_ID_CMAS_ALERT_SEVERE_EXPECTED_LIKELY_LANGUAGE + 1]
      ++ cbRangeSeg amber
           [k.MESSAGE_ID_CMAS_ALERT_CHILD_ABDUCTION_EMERGENCY_LANGUAGE,
            k.MESSAGE_ID_CMAS_ALERT_CHILD_ABDUCTION_EMERGENCY_LANGUAGE + 1]
      ++ cbRangeSeg cmasTest
           [k.MESSAGE_ID_CMAS_ALERT_REQUIRED_MONTHLY_TEST_LANGUAGE,
            k.MESSAGE_ID_CMAS_ALERT_OPERATOR_DEFINED_USE_LANGUAGE + 1] }

/-
JavaScript Array.prototype.toString on an array of (integral) numbers yields
the decimal representations of the elements joined by commas.  _isDifferentConfig
compares the stored and the fresh configuration through these strings, so the
string model is embedded here at the level of character lists (JS string
equality is character-sequence equality).
-/

/-- Little-endian decimal digits of n (empty for 0), with structural fuel so
that the definition reduces in the kernel.  The fuel is the number itself,
which always suffices since n / 10 < n for n > 0. -/
def natDigitsAux : Nat → Nat → List Nat
  | _, 0 => []
  | 0, _ + 1 => []
  | fuel + 1, n + 1 => ((n + 1) % 10) :: natDigitsAux fuel ((n + 1) / 10)

/-- Little-endian decimal digits of a natural number, [] for 0. -/
def natDigits (n : Nat) : List Nat :=
  natDigitsAux n n

/-- Value of a little-endian digit list. -/
def digitsVal (l : List Nat) : Nat :=
  l.foldr (fun d acc => d + 10 * acc) 0

/-- The character sequence of the JavaScript decimal string of a number:
"0" for 0, otherwise the digits most-significant first. -/
def jsNumChars (n : Nat) : List Char :=
  if n = 0 then ['0'] else ((natDigits n).reverse.map Nat.digitChar)

/-- Join a list of character sequences with commas, as
Array.prototype.toString does with its elements. -/
def joinComma : List (List Char) → List Char
  | [] => []
  | [s] => s
  | s :: rest => s ++ ',' :: joinComma rest

/-- The character sequence of the JavaScript string produced by
Array.prototype.toString on an array of numbers. -/
def jsArrayToString (l : List Nat) : List Char :=
  joinComma (l.map jsNumChars)

/-- GonkCellBroadcastConfigHandler._isDifferentConfig: true when the gsm or
cdma lengths differ or when either toString comparison differs; the JS
function otherwise falls off the end and returns undefined, which its only
call site uses as a boolean, hence false here. -/
def isDifferentConfig (aOld aNew : CBConfig) : Bool :=
  if aOld.gsm.length ≠ aNew.gsm.length then true
  else if aOld.cdma.length ≠ aNew.cdma.length then true
  else if jsArrayToString aOld.gsm ≠ jsArrayToString aNew.gsm then true
  else if jsArrayToString aOld.cdma ≠ jsArrayToString aNew.cdma then true
  else false

/-- GonkCellBroadcastConfigHandler._updateCellBroadcastConfig.  Inputs: the
guards (whether this._mccmnc is set and whether a radio interface exists for
the slot), the constants and customization flags feeding
_getCellBroadcastConfig, and the stored this._config.  Output: whether
gCellBroadcastService.setCBSearchList was invoked, and the value of
this._config afterwards. -/
def updateCellBroadcastConfig (k : CBConsts) (f : CBFlags) (mccmncSet : Bool)
    (radioInterfaceSet : Bool) (stored : CBConfig) : Bool × CBConfig :=
  if !mccmncSet then (false, stored)
  else if !radioInterfaceSet then (false, stored)
  else
    let config := getCellBroadcastConfig k f
    if isDifferentConfig stored config then (true, config)
    else (false, stored)

/-
GonkCellBroadcastConfigService.getCBSearchList (strict-mode JS).  The body's
first statement reads the identifier aCLientId; identifier resolution walks
the scope chain (function locals and parameters, then the file's module
scope), and an unresolvable identifier throws a ReferenceError.
-/

/-- A JavaScript runtime value, at the granularity this model needs. -/
inductive JsVal where
  | num (n : Nat)
  | obj
deriving DecidableEq

/-- A JavaScript abrupt completion relevant here. -/
inductive JsError where
  | referenceError (name : List Char)
  | xpcomError (code : Nat)
deriving DecidableEq

/-- nsresult NS_ERROR_NOT_AVAILABLE (standard XPCOM error code). -/
def NS_ERROR_NOT_AVAILABLE : Nat := 0x80040111

/-- Resolve an identifier against an environment of declared bindings; an
identifier not declared anywhere in the scope chain raises a ReferenceError
in strict mode. -/
def resolveId (env : List (List Char × JsVal)) (x : List Char) : Except JsError JsVal :=
  match env.find? (fun b => b.fst = x) with
  | some b => Except.ok b.snd
  | none => Except.error (JsError.referenceError x)

/-- The bindings visible inside getCBSearchList: its five parameters, its
let-declared locals, and the module-scope bindings of the file (lazy service
getters, constants, DEBUG, debug, the two constructors, Components and its
destructured shorthands, and the global NSGetFactory). -/
def getCBSearchListEnv (aClientId : Nat) : List (List Char × JsVal) :=
  [(['a','C','l','i','e','n','t','I','d'], JsVal.num aClientId),
   (['a','G','s','m','C','o','u','n','t'], JsVal.obj),
   (['a','G','s','m','s'], JsVal.obj),
   (['a','C','d','m','a','C','o','u','n','t'], JsVal.obj),
   (['a','C','d','m','a','s'], JsVal.obj),
   (['h','a','n','d','l','e','r'], JsVal.obj),
   (['c','o','n','f','i','g'], JsVal.obj),
   (['t','h','i','s'], JsVal.obj),
   (['C','o','m','p','o','n','e','n','t','s'], JsVal.obj),
   (['C','c'], JsVal.obj), (['C','i'], JsVal.obj),
   (['C','u'], JsVal.obj), (['C','r'], JsVal.obj),
   (['X','P','C','O','M','U','t','i','l','s'], JsVal.obj),
   (['S','e','r','v','i','c','e','s'], JsVal.obj),
   (['R','I','L'], JsVal.obj), (['S','M','S','C','B'], JsVal.obj),
   (['g','R','a','d','i','o','I','n','t','e','r','f','a','c','e','L','a','y','e','r'], JsVal.obj),
   (['g','C','e','l','l','B','r','o','a','d','c','a','s','t','S','e','r','v','i','c','e'], JsVal.obj),
   (['g','C','u','s','t','o','m','i','z','a','t','i','o','n','I','n','f','o'], JsVal.obj),
   (['g','I','c','c','S','e','r','v','i','c','e'], JsVal.obj),
   (['g','S','e','t','t','i','n','g','s','S','e','r','v','i','c','e'], JsVal.obj),
   (['D','E','B','U','G'], JsVal.obj), (['d','e','b','u','g'], JsVal.obj),
   (['G','o','n','k','C','e','l','l','B','r','o','a','d','c','a','s','t','C','o','n','f','i','g','S','e','r','v','i','c','e'], JsVal.obj),
   (['G','o','n','k','C','e','l','l','B','r','o','a','d','c','a','s','t','C','o','n','f','i','g','H','a','n','d','l','e','r'], JsVal.obj),
   (['G','O','N','K','_','C','E','L','L','B','R','O','A','D','C','A','S','T','C','O','N','F','I','G','S','E','R','V','I','C','E','_','C','O','N','T','R','A','C','T','I','D'], JsVal.obj),
   (['G','O','N','K','_','C','E','L','L','B','R','O','A','D','C','A','S','T','C','O','N','F','I','G','S','E','R','V','I','C','E','_','C','I','D'], JsVal.obj),
   (['G','O','N','K','_','C','E','L','L','B','R','O','A','D','C','A','S','T','C','O','N','F','I','G','H','A','N','D','L','E','R','_','C','I','D'], JsVal.obj),
   (['N','S','_','X','P','C','O','M','_','S','H','U','T','D','O','W','N','_','O','B','S','E','R','V','E','R','_','I','D'], JsVal.obj),
   (['N','S','_','P','R','E','F','B','R','A','N','C','H','_','P','R','E','F','C','H','A','N','G','E','_','T','O','P','I','C','_','I','D'], JsVal.obj),
   (['N','S','G','e','t','F','a','c','t','o','r','y'], JsVal.obj)]

/-- The out-parameter values getCBSearchList would fill on a normal return. -/
structure CBSearchListOut where
  gsmCount : Nat
  gsms : List Nat
  cdmaCount : Nat
  cdmas : List Nat
deriving DecidableEq

/-- GonkCellBroadcastConfigService.getCBSearchList.  handlers is
this._handlers (one configuration per slot, via handler.getConfig()).  The
first statement evaluates the identifier aCLientId before indexing
this._handlers; the remaining statements mirror the source. -/
def getCBSearchList (handlers : List CBConfig) (aClientId : Nat) :
    Except JsError CBSearchListOut :=
  match resolveId (getCBSearchListEnv aClientId) (['a','C','L','i','e','n','t','I','d']) with
  | Except.error e => Except.error e
  | Except.ok v =>
    let handler : Option CBConfig :=
      match v with
      | JsVal.num i => handlers[i]?
      | JsVal.obj => none
    match handler with
    | none => Except.error (JsError.xpcomError NS_ERROR_NOT_AVAILABLE)
    | some config =>
      Except.ok { gsmCount := config.gsm.length, gsms := config.gsm,
                  cdmaCount := config.cdma.length, cdmas := config.cdma }

/-
==========================================================================
Part 2.  nsRilWorker request forwarders (nsRilWorker.cpp)
==========================================================================
-/

/-- nsresult NS_OK (success). -/
def NS_OK : Nat := 0

/-- nsresult NS_ERROR_FAILURE (generic failure, for contrast with NS_OK). -/
def NS_ERROR_FAILURE : Nat := 0x80004005

/-- INT32_MAX. -/
def INT32_MAX : Int := 2147483647

/-- A call performed through the Radio HAL proxy, with its parameters and
whether the vendor side reported it as successful (the source discards this
vendor status). -/
inductive ProxyCall where
  | radioPowerCall (serial : Int) (enabled : Bool) (vendorOk : Bool)
  | cellInfoListRateCall (serial : Int) (rate : Int) (vendorOk : Bool)
deriving DecidableEq

/-- Observable outcome of one nsRilWorker request-forwarder invocation: the
error log lines emitted, the vendor calls performed, whether a call through a
null mRadioProxy was executed (a null-pointer dereference), and the nsresult
returned to the caller (none when the method crashed before returning). -/
structure RilMethodRun where
  logs : List String
  vendorCalls : List ProxyCall
  nullDerefHit : Bool
  ret : Option Nat
deriving DecidableEq

/-- nsRilWorker::SetRadioPower.  proxyAvail: whether GetRadioProxy obtained
the Radio HAL service, leaving mRadioProxy non-null; vendorOk: whether the
vendor call, when reached, succeeds.  The null check only logs; the proxy
call that follows it is executed unconditionally, and the method returns
NS_OK on every path that returns at all. -/
def setRadioPowerRun (proxyAvail vendorOk : Bool) (serial : Int)
    (enabled : Bool) : RilMethodRun :=
  let logs := if proxyAvail then [] else ["No Radio HAL exist"]
  if proxyAvail then
    { logs := logs,
      vendorCalls := [ProxyCall.radioPowerCall serial enabled vendorOk],
      nullDerefHit := false, ret := some NS_OK }
  else
    { logs := logs, vendorCalls := [], nullDerefHit := true, ret := none }

/-- nsRilWorker::SetCellInfoListRate, with the same null-check structure as
SetRadioPower plus the rate substitution: a rate of 0 is replaced by
INT32_MAX before the proxy call. -/
def setCellInfoListRateRun (proxyAvail vendorOk : Bool)
    (serial rateInMillis : Int) : RilMethodRun :=
  let logs := if proxyAvail then [] else ["No Radio HAL exist"]
  let rate := if rateInMillis = 0 then INT32_MAX else rateInMillis
  if proxyAvail then
    { logs := logs,
      vendorCalls := [ProxyCall.cellInfoListRateCall serial rate vendorOk],
      nullDerefHit := false, ret := some NS_OK }
  else
    { logs := logs, vendorCalls := [], nullDerefHit := true, ret := none }

/-- nsRilWorker::SetGsmBroadcastConfig: logs the request and returns NS_OK
without performing any vendor call at all. -/
def setGsmBroadcastConfigRun (serial : Int) (ranges : List Int) : RilMethodRun :=
  { logs := [], vendorCalls := [], nullDerefHit := false, ret := some NS_OK }

/-
==========================================================================
Part 3.  WifiNative orchestration (nsRilWorker.cpp, WifiNative part)
==========================================================================
-/

/-- Result_t codes from nsIWifiResult.  Modelled from the spec: the idl is not
among the sources; only SUCCESS being distinct from the error codes matters. -/
def SUCCESS : Nat := 0

/-- nsIWifiResult::ERROR_UNKNOWN. -/
def ERROR_UNKNOWN : Nat := 1

/-- nsIWifiResult::ERROR_COMMAND_FAILED. -/
def ERROR_COMMAND_FAILED : Nat := 2

/-- The CHECK_SUCCESS(cond) macro.  Modelled from the spec: the definition is
not among the sources; it turns a boolean into SUCCESS or a failure code. -/
def CHECK_SUCCESS (cond : Bool) : Nat :=
  if cond then SUCCESS else ERROR_COMMAND_FAILED

/-- static const int32_t CONNECTION_RETRY_TIMES = 50. -/
def CONNECTION_RETRY_TIMES : Nat := 50

/-- static const int32_t CONNECTION_RETRY_INTERVAL_US = 100000. -/
def CONNECTION_RETRY_INTERVAL_US : Nat := 100000

/-- Outcome of the busy-poll loop: whether it exited with connected = true,
how many times it called IsInterfaceReady, and how many
usleep(CONNECTION_RETRY_INTERVAL_US) calls it made. -/
structure LoopRun where
  connected : Bool
  polls : Nat
  sleeps : Nat
deriving DecidableEq

/-- The loop 'while (!connected && connectTries++ < CONNECTION_RETRY_TIMES)'
shared verbatim by StartSupplicant and StartAndConnectHostapd.  ready i is
the result of the i-th readiness check made inside the loop; a poll that
reports ready sets connected and breaks, every other poll is followed by one
sleep.  fuel is the number of loop entries the guard still allows. -/
def connectRetryAux (ready : Nat → Bool) : Nat → Nat → Nat → LoopRun
  | 0, polls, sleeps => { connected := false, polls := polls, sleeps := sleeps }
  | fuel + 1, polls, sleeps =>
    if ready polls then { connected := true, polls := polls + 1, sleeps := sleeps }
    else connectRetryAux ready fuel (polls + 1) (sleeps + 1)

/-- The busy-poll loop entered with connectTries = 0. -/
def connectRetryLoop (ready : Nat → Bool) : LoopRun :=
  connectRetryAux ready CONNECTION_RETRY_TIMES 0 0

/-- External vendor-side state touched by the Wi-Fi orchestration: driver
module, STA interface, wificond client interface, supplicant HAL interface,
supplicant daemon, supplicant STA interface, and the supplicant death-handler
registration.  The effects of the vendor calls on this state are modelled
from the spec (the vendor managers themselves are not among the sources). -/
structure VState where
  moduleLoaded : Bool
  staIfaceCreated : Bool
  wificondClientIface : Bool
  suppHalInited : Bool
  suppDaemonRunning : Bool
  suppStaIfaceSetup : Bool
  deathHandlerRegistered : Bool
deriving DecidableEq

/-- The vendor state before any Wi-Fi start: everything down. -/
def idleVState : VState :=
  { moduleLoaded := false, staIfaceCreated := false, wificondClientIface := false,
    suppHalInited := false, suppDaemonRunning := false, suppStaIfaceSetup := false,
    deathHandlerRegistered := false }

/-- Environment of one StartWifi / StopWifi run: the result each vendor call
would report, and the readiness answers for the supplicant polling loop. -/
structure WifiEnv where
  startModule : Nat
  configChip : Nat
  eventServiceOk : Bool
  suppPreReady : Bool
  suppInit : Nat
  suppDaemonStart : Nat
  suppReady : Nat → Bool
  setupClientIface : Nat
  setupStaIface : Nat
  ifaceNameNonEmpty : Bool
  stopSuppDeinit : Nat
  stopSuppDaemon : Nat
  tearDownClient : Nat
  tearDownSta : Nat

/-- The steps of StartWifi, for the execution trace. -/
inductive WStep where
  | startModule
  | configChip
  | createEventService
  | startSupplicant
  | registerDeathHandler
  | setupClientIface
  | tearDownClientIface
  | setupStaIface
deriving DecidableEq

/-- Outcome of WifiNative::StartSupplicant. -/
structure SuppRun where
  result : Nat
  state : VState
  polls : Nat
  sleeps : Nat

/-- WifiNative::StartSupplicant: initialize the supplicant HAL client if the
interface is not already ready, start the daemon through wificond, then poll
readiness in the bounded busy-wait loop and return CHECK_SUCCESS(connected).
suppPreReady is the answer of the IsInterfaceReady check before the loop;
suppReady i the answer of the i-th check inside the loop. -/
def startSupplicant (e : WifiEnv) (s : VState) : SuppRun :=
  let initStep : Nat × VState :=
    if e.suppPreReady then (SUCCESS, s)
    else (e.suppInit,
          if e.suppInit = SUCCESS then { s with suppHalInited := true } else s)
  if initStep.fst ≠ SUCCESS then
    { result := initStep.fst, state := initStep.snd, polls := 0, sleeps := 0 }
  else if e.suppDaemonStart ≠ SUCCESS then
    { result := e.suppDaemonStart, state := initStep.snd, polls := 0, sleeps := 0 }
  else
    let s2 := { initStep.snd with suppDaemonRunning := true }
    let lr := connectRetryLoop e.suppReady
    { result := CHECK_SUCCESS lr.connected, state := s2,
      polls := lr.polls, sleeps := lr.sleeps }

/-- Outcome of WifiNative::StartWifi: the returned Result_t, the vendor state
afterwards, and the executed steps in order. -/
structure StartWifiRun where
  result : Nat
  state : VState
  trace : List WStep

/-- WifiNative::StartWifi, statement by statement.  Each vendor call's effect
is applied when that call reports success.  Note the source discards the
result of ConfigChipAndCreateIface: a failure there neither aborts nor
changes the returned status. -/
def startWifi (e : WifiEnv) (s : VState) : StartWifiRun :=
  let s1 := if e.startModule = SUCCESS then { s with moduleLoaded := true } else s
  if e.startModule ≠ SUCCESS then
    { result := e.startModule, state := s1, trace := [WStep.startModule] }
  else
    let s2 := if e.configChip = SUCCESS then { s1 with staIfaceCreated := true } else s1
    if !e.eventServiceOk then
      { result := ERROR_COMMAND_FAILED, state := s2,
        trace := [WStep.startModule, WStep.configChip, WStep.createEventService] }
    else
      let sup := startSupplicant e s2
      if sup.result ≠ SUCCESS then
        { result := sup.result, state := sup.state,
          trace := [WStep.startModule, WStep.configChip, WStep.createEventService,
                    WStep.startSupplicant] }
      else
        let s4 := { sup.state with deathHandlerRegistered := true }
        if e.setupClientIface ≠ SUCCESS then
          { result := e.setupClientIface,
            state := { s4 with wificondClientIface := false },
            trace := [WStep.startModule, WStep.configChip, WStep.createEventService,
                      WStep.startSupplicant, WStep.registerDeathHandler,
                      WStep.setupClientIface, WStep.tearDownClientIface] }
        else
          let s5 := { s4 with wificondClientIface := true }
          if e.setupStaIface ≠ SUCCESS then
            { result := e.setupStaIface, state := s5,
              trace := [WStep.startModule, WStep.configChip, WStep.createEventService,
                        WStep.startSupplicant, WStep.registerDeathHandler,
                        WStep.setupClientIface, WStep.setupStaIface] }
          else
            let s6 := { s5 with suppStaIfaceSetup := true }
            { result := CHECK_SUCCESS e.ifaceNameNonEmpty, state := s6,
              trace := [WStep.startModule, WStep.configChip, WStep.createEventService,
                        WStep.startSupplicant, WStep.registerDeathHandler,
                        WStep.setupClientIface, WStep.setupStaIface] }

/-- Outcome of WifiNative::StopWifi (and of StopSupplicant). -/
structure StopWifiRun where
  result : Nat
  state : VState

/-- WifiNative::StopSupplicant: deinitialize the supplicant HAL interfaces,
then stop the daemon through wificond. -/
def stopSupplicant (e : WifiEnv) (s : VState) : StopWifiRun :=
  let s1 := if e.stopSuppDeinit = SUCCESS then
              { s with suppHalInited := false, suppStaIfaceSetup := false }
            else s
  if e.stopSuppDeinit ≠ SUCCESS then { result := e.stopSuppDeinit, state := s1 }
  else
    let s2 := if e.stopSuppDaemon = SUCCESS then
                { s1 with suppDaemonRunning := false }
              else s1
    if e.stopSuppDaemon ≠ SUCCESS then { result := e.stopSuppDaemon, state := s2 }
    else { result := SUCCESS, state := s2 }

/-- WifiNative::StopWifi: stop supplicant, tear down the wificond client
interface, unregister the death handler, tear down the STA interface and
unload the module. -/
def stopWifi (e : WifiEnv) (s : VState) : StopWifiRun :=
  let sup := stopSupplicant e s
  if sup.result ≠ SUCCESS then { result := sup.result, state := sup.state }
  else
    let s2 := if e.tearDownClient = SUCCESS then
                { sup.state with wificondClientIface := false }
              else sup.state
    if e.tearDownClient ≠ SUCCESS then { result := e.tearDownClient, state := s2 }
    else
      let s3 := { s2 with deathHandlerRegistered := false }
      let s4 := if e.tearDownSta = SUCCESS then
                  { s3 with moduleLoaded := false, staIfaceCreated := false }
                else s3
      if e.tearDownSta ≠ SUCCESS then { result := e.tearDownSta, state := s4 }
      else { result := SUCCESS, state := s4 }

/-- Environment of WifiNative::StartAndConnectHostapd: the InitInterface
result and the readiness answers of the polling loop. -/
structure HostapdEnv where
  init : Nat
  ready : Nat → Bool

/-- Outcome of WifiNative::StartAndConnectHostapd. -/
structure HostapdRun where
  result : Nat
  polls : Nat
  sleeps : Nat

/-- WifiNative::StartAndConnectHostapd: initialize the hostapd interface then
poll readiness in the identical bounded busy-wait loop. -/
def startAndConnectHostapd (e : HostapdEnv) : HostapdRun :=
  if e.init ≠ SUCCESS then { result := e.init, polls := 0, sleeps := 0 }
  else
    let lr := connectRetryLoop e.ready
    { result := CHECK_SUCCESS lr.connected, polls := lr.polls, sleeps := lr.sleeps }

/-- Environment of one WifiNative::Connect run: the status the StopSingleScan
call would report, and the ConnectToNetwork result. -/
structure ConnectEnv where
  stopSingleScan : Nat
  connectToNetwork : Nat

/-- Outcome of WifiNative::Connect: the status the StopSingleScan call
reported (the source discards it) and the Result_t returned to the caller. -/
structure ConnectRun where
  scanStopStatus : Nat
  result : Nat
deriving DecidableEq

/-- WifiNative::Connect: aborts any ongoing scan first, discarding
StopSingleScan's status, then checks ConnectToNetwork and returns its failure
verbatim, or SUCCESS. -/
def connectWifi (e : ConnectEnv) : ConnectRun :=
  { scanStopStatus := e.stopSingleScan,
    result := if e.connectToNetwork ≠ SUCCESS then e.connectToNetwork else SUCCESS }

/-
WifiNative::ExecuteCommand.  The command codes come from nsIWifiCommand (idl
not among the sources); the dispatch only compares them for equality, so
distinct model values suffice.  CMD_INIT stands for the interface's hal
initialization command (the first branch of the chain).
-/

/-- nsIWifiCommand hal initialization command code. -/
def CMD_INIT : Nat := 1

/-- nsIWifiCommand::GET_MODULE_VERSION. -/
def CMD_GET_MODULE_VERSION : Nat := 2

/-- nsIWifiCommand::GET_CAPABILITIES. -/
def CMD_GET_CAPABILITIES : Nat := 3

/-- nsIWifiCommand::SET_LOW_LATENCY_MODE. -/
def CMD_SET_LOW_LATENCY_MODE : Nat := 4

/-- nsIWifiCommand::SET_CONCURRENCY_PRIORITY. -/
def CMD_SET_CONCURRENCY_PRIORITY : Nat := 5

/-- nsIWifiCommand::START_WIFI. -/
def CMD_START_WIFI : Nat := 6

/-- nsIWifiCommand::STOP_WIFI. -/
def CMD_STOP_WIFI : Nat := 7

/-- nsIWifiCommand::GET_MAC_ADDRESS. -/
def CMD_GET_MAC_ADDRESS : Nat := 8

/-- nsIWifiCommand::GET_STA_IFACE. -/
def CMD_GET_STA_IFACE : Nat := 9

/-- nsIWifiCommand::GET_STA_CAPABILITIES. -/
def CMD_GET_STA_CAPABILITIES : Nat := 10

/-- nsIWifiCommand::GET_DEBUG_LEVEL. -/
def CMD_GET_DEBUG_LEVEL : Nat := 11

/-- nsIWifiCommand::SET_DEBUG_LEVEL. -/
def CMD_SET_DEBUG_LEVEL : Nat := 12

/-- nsIWifiCommand::SET_POWER_SAVE. -/
def CMD_SET_POWER_SAVE : Nat := 13

/-- nsIWifiCommand::SET_SUSPEND_MODE. -/
def CMD_SET_SUSPEND_MODE : Nat := 14

/-- nsIWifiCommand::SET_EXTERNAL_SIM. -/
def CMD_SET_EXTERNAL_SIM : Nat := 15

/-- nsIWifiCommand::SET_AUTO_RECONNECT. -/
def CMD_SET_AUTO_RECONNECT : Nat := 16

/-- nsIWifiCommand::SET_COUNTRY_CODE. -/
def CMD_SET_COUNTRY_CODE : Nat := 17

/-- nsIWifiCommand::SET_BT_COEXIST_MODE. -/
def CMD_SET_BT_COEXIST_MODE : Nat := 18

/-- nsIWifiCommand::SET_BT_COEXIST_SCAN_MODE. -/
def CMD_SET_BT_COEXIST_SCAN_MODE : Nat := 19

/-- nsIWifiCommand::START_SINGLE_SCAN. -/
def CMD_START_SINGLE_SCAN : Nat := 20

/-- nsIWifiCommand::STOP_SINGLE_SCAN. -/
def CMD_STOP_SINGLE_SCAN : Nat := 21

/-- nsIWifiCommand::START_PNO_SCAN. -/
def CMD_START_PNO_SCAN : Nat := 22

/-- nsIWifiCommand::STOP_PNO_SCAN. -/
def CMD_STOP_PNO_SCAN : Nat := 23

/-- nsIWifiCommand::GET_SCAN_RESULTS. -/
def CMD_GET_SCAN_RESULTS : Nat := 24

/-- nsIWifiCommand::GET_PNO_SCAN_RESULTS. -/
def CMD_GET_PNO_SCAN_RESULTS : Nat := 25

/-- nsIWifiCommand::GET_CHANNELS_FOR_BAND. -/
def CMD_GET_CHANNELS_FOR_BAND : Nat := 26

/-- nsIWifiCommand::CONNECT. -/
def CMD_CONNECT : Nat := 27

/-- nsIWifiCommand::RECONNECT. -/
def CMD_RECONNECT : Nat := 28

/-- nsIWifiCommand::REASSOCIATE. -/
def CMD_REASSOCIATE : Nat := 29

/-- nsIWifiCommand::DISCONNECT. -/
def CMD_DISCONNECT : Nat := 30

/-- nsIWifiCommand::REMOVE_NETWORKS. -/
def CMD_REMOVE_NETWORKS : Nat := 31

/-- nsIWifiCommand::START_SOFTAP. -/
def CMD_START_SOFTAP : Nat := 32

/-- nsIWifiCommand::STOP_SOFTAP. -/
def CMD_STOP_SOFTAP : Nat := 33

/-- nsIWifiCommand::GET_AP_IFACE. -/
def CMD_GET_AP_IFACE : Nat := 34

/-- nsIWifiCommand::GET_SOFTAP_STATION_NUMBER. -/
def CMD_GET_SOFTAP_STATION_NUMBER : Nat := 35

/-- The fields of CommandOptions that the dispatch itself reads. -/
structure CommandOptions where
  mId : Nat
  mCmd : Nat
deriving DecidableEq

/-- The fields of nsWifiResult that every branch touches (payload fields such
as scan results or interface names are elided; no claim concerns them). -/
structure WifiResultRec where
  mId : Nat
  mStatus : Nat
deriving DecidableEq

/-- Environment of one ExecuteCommand dispatch: the status each orchestration
method would return (by command code), and whether GetScanResults produced an
empty vector. -/
structure ExecEnv where
  handlerStatus : Nat → Nat
  scanResultsEmpty : Bool

/-- WifiNative::ExecuteCommand.  The first statement correlates the opaque
ids (aResult->mId = aOptions.mId); then the if/else-if chain dispatches on
aOptions.mCmd, each known branch storing its handler's status into
aResult->mStatus.  The GET_SCAN_RESULTS branch returns false early when no
scan result is available; an unknown command logs and returns false; every
other path returns true. -/
def executeCommand (e : ExecEnv) (aOptions : CommandOptions)
    (aResult : WifiResultRec) : WifiResultRec × Bool :=
  let r := { aResult with mId := aOptions.mId }
  let st := e.handlerStatus aOptions.mCmd
  if aOptions.mCmd = CMD_INIT then ({ r with mStatus := st }, true)
  else if aOptions.mCmd = CMD_GET_MODULE_VERSION then ({ r with mStatus := st }, true)
  else if aOptions.mCmd = CMD_GET_CAPABILITIES then ({ r with mStatus := st }, true)
  else if aOptions.mCmd = CMD_SET_LOW_LATENCY_MODE then ({ r with mStatus := st }, true)
  else if aOptions.mCmd = CMD_SET_CONCURRENCY_PRIORITY then ({ r with mStatus := st }, true)
  else if aOptions.mCmd = CMD_START_WIFI then ({ r with mStatus := st }, true)
  else if aOptions.mCmd = CMD_STOP_WIFI then ({ r with mStatus := st }, true)
  else if aOptions.mCmd = CMD_GET_MAC_ADDRESS then ({ r with mStatus := st }, true)
  else if aOptions.mCmd = CMD_GET_STA_IFACE then ({ r with mStatus := st }, true)
  else if aOptions.mCmd = CMD_GET_STA_CAPABILITIES then ({ r with mStatus := st }, true)
  else if aOptions.mCmd = CMD_GET_DEBUG_LEVEL then ({ r with mStatus := st }, true)
  else if aOptions.mCmd = CMD_SET_DEBUG_LEVEL then ({ r with mStatus := st }, true)
  else if aOptions.mCmd = CMD_SET_POWER_SAVE then ({ r with mStatus := st }, true)
  else if aOptions.mCmd = CMD_SET_SUSPEND_MODE then ({ r with mStatus := st }, true)
  else if aOptions.mCmd = CMD_SET_EXTERNAL_SIM then ({ r with mStatus := st }, true)
  else if aOptions.mCmd = CMD_SET_AUTO_RECONNECT then ({ r with mStatus := st }, true)
  else if aOptions.mCmd = CMD_SET_COUNTRY_CODE then ({ r with mStatus := st }, true)
  else if aOptions.mCmd = CMD_SET_BT_COEXIST_MODE then ({ r with mStatus := st }, true)
  else if aOptions.mCmd = CMD_SET_BT_COEXIST_SCAN_MODE then ({ r with mStatus := st }, true)
  else if aOptions.mCmd = CMD_START_SINGLE_SCAN then ({ r with mStatus := st }, true)
  else if aOptions.mCmd = CMD_STOP_SINGLE_SCAN then ({ r with mStatus := st }, true)
  else if aOptions.mCmd = CMD_START_PNO_SCAN then ({ r with mStatus := st }, true)
  else if aOptions.mCmd = CMD_STOP_PNO_SCAN then ({ r with mStatus := st }, true)
  else if aOptions.mCmd = CMD_GET_SCAN_RESULTS then
    let r2 := { r with mStatus := st }
    if e.scanResultsEmpty then (r2, false) else (r2, true)
  else if aOptions.mCmd = CMD_GET_PNO_SCAN_RESULTS then ({ r with mStatus := st }, true)
  else if aOptions.mCmd = CMD_GET_CHANNELS_FOR_BAND then ({ r with mStatus := st }, true)
  else if aOptions.mCmd = CMD_CONNECT then ({ r with mStatus := st }, true)
  else if aOptions.mCmd = CMD_RECONNECT then ({ r with mStatus := st }, true)
  else if aOptions.mCmd = CMD_REASSOCIATE then ({ r with mStatus := st }, true)
  else if aOptions.mCmd = CMD_DISCONNECT then ({ r with mStatus := st }, true)
  else if aOptions.mCmd = CMD_REMOVE_NETWORKS then ({ r with mStatus := st }, true)
  else if aOptions.mCmd = CMD_START_SOFTAP then ({ r with mStatus := st }, true)
  else if aOptions.mCmd = CMD_STOP_SOFTAP then ({ r with mStatus := st }, true)
  else if aOptions.mCmd = CMD_GET_AP_IFACE then ({ r with mStatus := st }, true)
  else if aOptions.mCmd = CMD_GET_SOFTAP_STATION_NUMBER then ({ r with mStatus := st }, true)
  else (r, false)

/-
Concrete sample inputs used by the witnesses.
-/

/-- Concrete constant values matching the ranges documented in the source
comments (ETWS 4352-4356, CMAS 4370-4395, CDMA categories 4096-4100). -/
def cbSampleConsts : CBConsts :=
  { SERVICE_CATEGORY_CMAS_PRESIDENTIAL_LEVEL_ALERT := 4096,
    SERVICE_CATEGORY_CMAS_EXTREME_THREAT := 4097,
    SERVICE_CATEGORY_CMAS_SEVERE_THREAT := 4098,
    SERVICE_CATEGORY_CMAS_CHILD_ABDUCTION_EMERGENCY := 4099,
    SERVICE_CATEGORY_CMAS_TEST_MESSAGE := 4100,
    MESSAGE_ID_ETWS_EARTHQUAKE_WARNING := 4352,
    MESSAGE_ID_ETWS_EARTHQUAKE_AND_TSUNAMI_WARNING := 4354,
    MESSAGE_ID_ETWS_OTHER_EMERGENCY_TYPE := 4356,
    MESSAGE_ID_ETWS_TEST_MESSAGE := 4355,
    MESSAGE_ID_CMAS_ALERT_PRESIDENTIAL_LEVEL := 4370,
    MESSAGE_ID_CMAS_ALERT_EXTREME_EXPECTED_OBSERVED := 4371,
    MESSAGE_ID_CMAS_ALERT_SEVERE_EXPECTED_LIKELY := 4372,
    MESSAGE_ID_CMAS_ALERT_CHILD_ABDUCTION_EMERGENCY := 4379,
    MESSAGE_ID_CMAS_ALERT_REQUIRED_MONTHLY_TEST := 4380,
    MESSAGE_ID_CMAS_ALERT_OPERATOR_DEFINED_USE := 4382,
    MESSAGE_ID_CMAS_ALERT_PRESIDENTIAL_LEVEL_LANGUAGE := 4383,
    MESSAGE_ID_CMAS_ALERT_EXTREME_IMMEDIATE_OBSERVED_LANGUAGE := 4384,
    MESSAGE_ID_CMAS_ALERT_EXTREME_IMMEDIATE_LIKELY_LANGUAGE := 4385,
    MESSAGE_ID_CMAS_ALERT_EXTREME_EXPECTED_OBSERVED_LANGUAGE := 4386,
    MESSAGE_ID_CMAS_ALERT_SEVERE_EXPECTED_LIKELY_LANGUAGE := 4391,
    MESSAGE_ID_CMAS_ALERT_CHILD_ABDUCTION_EMERGENCY_LANGUAGE := 4392,
    MESSAGE_ID_CMAS_ALERT_REQUIRED_MONTHLY_TEST_LANGUAGE := 4393,
    MESSAGE_ID_CMAS_ALERT_OPERATOR_DEFINED_USE_LANGUAGE := 4395 }

/-- Customization flags with every alert enabled. -/
def cbAllFlags : CBFlags :=
  { emergencyAlertsCust := true, cmasExtremeCust := true, cmasSevereCust := true,
    cmasAmberCust := true, etwsTestCust := true, cmasTestCust := true,
    forceDisableEtwsCmasTest := false }

/-- Environment where every vendor call succeeds except the chip
configuration / STA interface creation. -/
def envConfigChipFails : WifiEnv :=
  { startModule := SUCCESS, configChip := ERROR_COMMAND_FAILED, eventServiceOk := true,
    suppPreReady := true, suppInit := SUCCESS, suppDaemonStart := SUCCESS,
    suppReady := fun _ => true, setupClientIface := SUCCESS, setupStaIface := SUCCESS,
    ifaceNameNonEmpty := true, stopSuppDeinit := SUCCESS, stopSuppDaemon := SUCCESS,
    tearDownClient := SUCCESS, tearDownSta := SUCCESS }

/-- Environment where every vendor call succeeds. -/
def envAllOk : WifiEnv :=
  { startModule := SUCCESS, configChip := SUCCESS, eventServiceOk := true,
    suppPreReady := false, suppInit := SUCCESS, suppDaemonStart := SUCCESS,
    suppReady := fun _ => true, setupClientIface := SUCCESS, setupStaIface := SUCCESS,
    ifaceNameNonEmpty := true, stopSuppDeinit := SUCCESS, stopSuppDaemon := SUCCESS,
    tearDownClient := SUCCESS, tearDownSta := SUCCESS }

/-- Environment where the driver-module start fails with a specific code. -/
def envStartModuleFails : WifiEnv :=
  { envAllOk with startModule := 7 }

/-- Environment where the supplicant STA interface setup fails. -/
def envSetupStaFails : WifiEnv :=
  { envAllOk with setupStaIface := 9 }

/-- Environment where nothing ever reports ready. -/
def envNeverReady : WifiEnv :=
  { envAllOk with suppPreReady := false, suppReady := fun _ => false }

/-- Environment where the wificond supplicant daemon stop fails. -/
def envStopDaemonFails : WifiEnv :=
  { envAllOk with stopSuppDaemon := 11 }

/-- Environment whose supplicant interface is ready before the loop and on
the first poll. -/
def envPreReadyOk : WifiEnv :=
  { envAllOk with suppPreReady := true }

/-- Hostapd environment that never reports ready. -/
def hostapdNeverReady : HostapdEnv :=
  { init := SUCCESS, ready := fun _ => false }

/-- Hostapd environment ready on the first poll. -/
def hostapdReadyNow : HostapdEnv :=
  { init := SUCCESS, ready := fun _ => true }

/-- The Result_t value StartSupplicant returns is determined by the
environment alone; its state argument only affects the state effects. -/
def startSupplicantResult (e : WifiEnv) : Nat :=
  (startSupplicant e idleVState).result

/-- C1: _getCellBroadcastConfig produces exactly the documented range table for
every combination of the customization flags. -/
theorem getCellBroadcastConfig_matches_table (k : CBConsts) (f : CBFlags) :
    getCellBroadcastConfig k f = cbExpectedConfig k f := by
  obtain ⟨a, b, c, d, e2, g, h2⟩ := f
  cases a <;> cases b <;> cases c <;> cases d <;> cases e2 <;> cases g <;> cases h2 <;> rfl

/-- digitsVal unfolding on a cons cell. -/
theorem digitsVal_cons (d : Nat) (l : List Nat) :
    digitsVal (d :: l) = d + 10 * digitsVal l := rfl

/-- The fuel in natDigitsAux suffices whenever it dominates the number. -/
theorem natDigitsAux_val : ∀ fuel n, n ≤ fuel → digitsVal (natDigitsAux fuel n) = n := by
  intro fuel
  induction fuel with
  | zero =>
    intro n hn
    have h0 : n = 0 := Nat.le_zero.mp hn
    subst h0; rfl
  | succ f ih =>
    intro n hn
    rcases n with _ | m
    · rfl
    · have hdiv : (m + 1) / 10 ≤ f := by
        have hlt : (m + 1) / 10 < m + 1 := Nat.div_lt_self (Nat.succ_pos m) (by norm_num)
        omega
      calc digitsVal (natDigitsAux (f + 1) (m + 1))
          = (m + 1) % 10 + 10 * digitsVal (natDigitsAux f ((m + 1) / 10)) := rfl
        _ = (m + 1) % 10 + 10 * ((m + 1) / 10) := by rw [ih _ hdiv]
        _ = m + 1 := Nat.mod_add_div (m + 1) 10

/-- Round trip: the value of the digit list is the number itself. -/
theorem digitsVal_natDigits (n : Nat) : digitsVal (natDigits n) = n :=
  natDigitsAux_val n n (Nat.le_refl n)

/-- Decimal digit lists are injective. -/
theorem natDigits_injective {m n : Nat} (h : natDigits m = natDigits n) : m = n := by
  rw [← digitsVal_natDigits m, ← digitsVal_natDigits n, h]

/-- Every entry of a digit list is a digit. -/
theorem natDigitsAux_lt_ten : ∀ fuel n d, d ∈ natDigitsAux fuel n → d < 10 := by
  intro fuel
  induction fuel with
  | zero =>
    intro n d hd
    rcases n with _ | m <;> simp [natDigitsAux] at hd
  | succ f ih =>
    intro n d hd
    rcases n with _ | m
    · simp [natDigitsAux] at hd
    · rcases List.mem_cons.mp hd with h | h
      · subst h; exact Nat.mod_lt _ (by norm_num)
      · exact ih _ _ h

/-- Nat.digitChar is injective on digits. -/
theorem digitChar_inj_ten {a b : Nat} (ha : a < 10) (hb : b < 10)
    (h : Nat.digitChar a = Nat.digitChar b) : a = b := by
  have key : ∀ x : Fin 10, ∀ y : Fin 10,
      Nat.digitChar x.val = Nat.digitChar y.val → x = y := by decide
  have := key ⟨a, ha⟩ ⟨b, hb⟩ h
  exact congrArg Fin.val this

/-- A digit character is never a comma. -/
theorem digitChar_ne_comma {d : Nat} (hd : d < 10) : Nat.digitChar d ≠ ',' := by
  have key : ∀ x : Fin 10, Nat.digitChar x.val ≠ ',' := by decide
  exact key ⟨d, hd⟩

/-- Only the digit 0 prints as the character 0. -/
theorem digitChar_eq_zero_char {d : Nat} (hd : d < 10)
    (h : Nat.digitChar d = '0') : d = 0 := by
  have key : ∀ x : Fin 10, Nat.digitChar x.val = '0' → x.val = 0 := by decide
  exact key ⟨d, hd⟩ h

/-- Mapping digitChar over digit lists is injective. -/
theorem map_digitChar_inj : ∀ l1 l2 : List Nat, (∀ d ∈ l1, d < 10) →
    (∀ d ∈ l2, d < 10) → l1.map Nat.digitChar = l2.map Nat.digitChar → l1 = l2 := by
  intro l1
  induction l1 with
  | nil =>
    intro l2 _ _ h
    rcases l2 with _ | ⟨b, t2⟩
    · rfl
    · simp at h
  | cons a t ih =>
    intro l2 h1 h2 h
    rcases l2 with _ | ⟨b, t2⟩
    · simp at h
    · simp only [List.map_cons, List.cons.injEq] at h
      have ha : a < 10 := h1 a (List.mem_cons_self _ _)
      have hb : b < 10 := h2 b (List.mem_cons_self _ _)
      have hab := digitChar_inj_ten ha hb h.1
      have ht := ih t2 (fun d hd => h1 d (List.mem_cons_of_mem _ hd))
        (fun d hd => h2 d (List.mem_cons_of_mem _ hd)) h.2
      rw [hab, ht]

/-- All digits of natDigits are below ten. -/
theorem natDigits_lt_ten {n d : Nat} (hd : d ∈ natDigits n) : d < 10 :=
  natDigitsAux_lt_ten n n d hd

/-- The JavaScript decimal string is injective on numbers. -/
theorem jsNumChars_injective : ∀ {m n : Nat}, jsNumChars m = jsNumChars n → m = n := by
  have single : ∀ n : Nat, n ≠ 0 → jsNumChars n = ['0'] → False := by
    intro n hn h
    rw [jsNumChars, if_neg hn] at h
    rcases hd : natDigits n with _ | ⟨d, t⟩
    · have hv := digitsVal_natDigits n
      rw [hd] at hv
      exact hn (by simpa [digitsVal] using hv.symm)
    · rcases t with _ | ⟨d2, t2⟩
      · rw [hd] at h
        simp only [List.reverse_cons, List.reverse_nil, List.nil_append,
          List.map_cons, List.map_nil, List.cons.injEq] at h
        have hdl : d < 10 := natDigits_lt_ten (by rw [hd]; exact List.mem_singleton_self d)
        have hd0 : d = 0 := digitChar_eq_zero_char hdl h.1
        have hv := digitsVal_natDigits n
        rw [hd, hd0] at hv
        exact hn (by simpa [digitsVal] using hv.symm)
      · rw [hd] at h
        have hlen := congrArg List.length h
        simp at hlen
  intro m n h
  by_cases hm : m = 0 <;> by_cases hn : n = 0
  · omega
  · exact absurd (by rw [← h, jsNumChars, if_pos hm] : jsNumChars n = ['0'])
      (fun hc => single n hn hc)
  · exact absurd (by rw [h, jsNumChars, if_pos hn] : jsNumChars m = ['0'])
      (fun hc => single m hm hc)
  · rw [jsNumChars, if_neg hm, jsNumChars, if_neg hn] at h
    have hrev := map_digitChar_inj (natDigits m).reverse (natDigits n).reverse
      (fun d hd => natDigits_lt_ten (List.mem_reverse.mp hd))
      (fun d hd => natDigits_lt_ten (List.mem_reverse.mp hd)) h
    exact natDigits_injective (List.reverse_injective hrev)

/-- No character of a JavaScript number string is a comma. -/
theorem jsNumChars_ne_comma (n : Nat) : ∀ c ∈ jsNumChars n, c ≠ ',' := by
  intro c hc
  by_cases hn : n = 0
  · rw [jsNumChars, if_pos hn] at hc
    simp only [List.mem_singleton] at hc
    subst hc; decide
  · rw [jsNumChars, if_neg hn] at hc
    simp only [List.mem_map, List.mem_reverse] at hc
    obtain ⟨d, hd, rfl⟩ := hc
    exact digitChar_ne_comma (natDigits_lt_ten hd)

/-- Splitting at the first comma is unambiguous when both prefixes are
comma-free. -/
theorem append_comma_inj : ∀ s1 s2 r1 r2 : List Char, (∀ c ∈ s1, c ≠ ',') →
    (∀ c ∈ s2, c ≠ ',') → s1 ++ ',' :: r1 = s2 ++ ',' :: r2 →
    s1 = s2 ∧ r1 = r2 := by
  intro s1
  induction s1 with
  | nil =>
    intro s2 r1 r2 _ h2 h
    rcases s2 with _ | ⟨b, t2⟩
    · simpa using h
    · simp only [List.nil_append, List.cons_append, List.cons.injEq] at h
      exact absurd h.1.symm (h2 b (List.mem_cons_self _ _))
  | cons a t ih =>
    intro s2 r1 r2 h1 h2 h
    rcases s2 with _ | ⟨b, t2⟩
    · simp only [List.cons_append, List.nil_append, List.cons.injEq] at h
      exact absurd h.1 (h1 a (List.mem_cons_self _ _))
    · simp only [List.cons_append, List.cons.injEq] at h
      obtain ⟨hab, ht⟩ := h
      obtain ⟨hts, htr⟩ := ih t2 r1 r2 (fun c hc => h1 c (List.mem_cons_of_mem _ hc))
        (fun c hc => h2 c (List.mem_cons_of_mem _ hc)) ht
      exact ⟨by rw [hab, hts], htr⟩

/-- Array.prototype.toString distinguishes any two different number arrays of
the same length. -/
theorem jsArrayToString_inj : ∀ l1 l2 : List Nat, l1.length = l2.length →
    jsArrayToString l1 = jsArrayToString l2 → l1 = l2 := by
  intro l1
  induction l1 with
  | nil =>
    intro l2 hlen _
    symm
    exact List.length_eq_zero.mp hlen.symm
  | cons a t ih =>
    intro l2 hlen h
    rcases l2 with _ | ⟨b, t2⟩
    · simp at hlen
    · rcases t with _ | ⟨c, t'⟩
      · rcases t2 with _ | ⟨d, t2'⟩
        · have hab : jsNumChars a = jsNumChars b := h
          rw [jsNumChars_injective hab]
        · simp at hlen
      · rcases t2 with _ | ⟨d, t2'⟩
        · simp at hlen
        · have h' : jsNumChars a ++ ',' :: jsArrayToString (c :: t') =
              jsNumChars b ++ ',' :: jsArrayToString (d :: t2') := h
          obtain ⟨hh, ht⟩ := append_comma_inj _ _ _ _ (jsNumChars_ne_comma a)
            (jsNumChars_ne_comma b) h'
          have hab := jsNumChars_injective hh
          have htail := ih (d :: t2') (by simpa using hlen) ht
          rw [hab, htail]

/-- _isDifferentConfig answers false exactly on configurations with equal
lists. -/
theorem isDifferentConfig_false_iff (a b : CBConfig) :
    isDifferentConfig a b = false ↔ (a.gsm = b.gsm ∧ a.cdma = b.cdma) := by
  constructor
  · intro h
    unfold isDifferentConfig at h
    split_ifs at h with h1 h2 h3 h4
    have e1 : a.gsm.length = b.gsm.length := not_not.mp h1
    have e2 : a.cdma.length = b.cdma.length := not_not.mp h2
    have e3 : jsArrayToString a.gsm = jsArrayToString b.gsm := not_not.mp h3
    have e4 : jsArrayToString a.cdma = jsArrayToString b.cdma := not_not.mp h4
    exact ⟨jsArrayToString_inj _ _ e1 e3, jsArrayToString_inj _ _ e2 e4⟩
  · rintro ⟨hg, hc⟩
    unfold isDifferentConfig
    rw [hg, hc]
    simp

/-- C2: in _updateCellBroadcastConfig (past its mccmnc and radio-interface
guards) the setCBSearchList push is skipped exactly when the newly computed
configuration has list-for-list identical contents with the stored one; when
they differ the push happens and the stored configuration is replaced by the
new one, and on a skip the stored configuration is kept. -/
theorem updateCellBroadcastConfig_push_iff_changed (k : CBConsts) (f : CBFlags)
    (stored : CBConfig) :
    ((updateCellBroadcastConfig k f true true stored).fst = false ↔
      (stored.gsm = (getCellBroadcastConfig k f).gsm ∧
       stored.cdma = (getCellBroadcastConfig k f).cdma)) ∧
    ((updateCellBroadcastConfig k f true true stored).fst = true →
      (updateCellBroadcastConfig k f true true stored).snd = getCellBroadcastConfig k f) ∧
    ((updateCellBroadcastConfig k f true true stored).fst = false →
      (updateCellBroadcastConfig k f true true stored).snd = stored) := by
  unfold updateCellBroadcastConfig
  simp only [Bool.not_true, Bool.false_eq_true, if_false]
  rcases hdiff : isDifferentConfig stored (getCellBroadcastConfig k f) with _ | _
  · have := (isDifferentConfig_false_iff stored (getCellBroadcastConfig k f)).mp hdiff
    simp [hdiff, this]
  · have : ¬ (stored.gsm = (getCellBroadcastConfig k f).gsm ∧
        stored.cdma = (getCellBroadcastConfig k f).cdma) := by
      intro hc
      have hfalse := (isDifferentConfig_false_iff stored (getCellBroadcastConfig k f)).mpr hc
      rw [hdiff] at hfalse
      exact Bool.noConfusion hfalse
    simp [hdiff, this]

/-- Witness for C2: with the documented constants and all alerts enabled, a
stored configuration equal to the computed one skips the push and keeps the
stored value, and an empty stored configuration triggers the push and stores
the computed value. -/
theorem updateCellBroadcastConfig_push_iff_changed_witness :
    (updateCellBroadcastConfig cbSampleConsts cbAllFlags true true
        (getCellBroadcastConfig cbSampleConsts cbAllFlags)).fst = false ∧
    (updateCellBroadcastConfig cbSampleConsts cbAllFlags true true
        { cdma := [], gsm := [] }).snd =
      getCellBroadcastConfig cbSampleConsts cbAllFlags :=
  ⟨(updateCellBroadcastConfig_push_iff_changed cbSampleConsts cbAllFlags
      (getCellBroadcastConfig cbSampleConsts cbAllFlags)).1.mpr ⟨rfl, rfl⟩,
   (updateCellBroadcastConfig_push_iff_changed cbSampleConsts cbAllFlags
      { cdma := [], gsm := [] }).2.1 (by decide)⟩

/-- C8: for every client id and every handler table, getCBSearchList resolves
the misspelled identifier aCLientId (the parameter is spelled aClientId),
which is declared nowhere in the scope chain, so under strict mode every
invocation throws a ReferenceError before any out-parameter is filled. -/
theorem getCBSearchList_always_reference_error (handlers : List CBConfig)
    (aClientId : Nat) :
    getCBSearchList handlers aClientId =
      Except.error (JsError.referenceError
        (['a','C','L','i','e','n','t','I','d'])) := by
  rfl

/-- C9: ExecuteCommand copies the request id into the result before any
dispatch, so the id correlation holds on every exit path, including the
unknown-command and the empty-scan-results early returns. -/
theorem executeCommand_id_correlation (e : ExecEnv) (aOptions : CommandOptions)
    (aResult : WifiResultRec) :
    (executeCommand e aOptions aResult).fst.mId = aOptions.mId := by
  unfold executeCommand
  simp only [apply_ite Prod.fst, apply_ite WifiResultRec.mId, ite_self]

/-- C10: SetCellInfoListRate forwards INT32_MAX to the Radio HAL proxy when
called with a rate of 0, and forwards any non-zero rate unchanged. -/
theorem setCellInfoListRate_zero_becomes_int32_max (vendorOk : Bool)
    (serial rateInMillis : Int) :
    (setCellInfoListRateRun true vendorOk serial rateInMillis).vendorCalls =
      [ProxyCall.cellInfoListRateCall serial
        (if rateInMillis = 0 then INT32_MAX else rateInMillis) vendorOk] := by
  unfold setCellInfoListRateRun
  simp

/-- C5: when the Radio HAL service is unavailable and GetRadioProxy leaves
mRadioProxy null, SetRadioPower logs the error and still performs the call
through the null proxy: the null check does not make the dereference
unreachable, and the method never returns. -/
theorem setRadioPower_null_proxy_deref (vendorOk : Bool) (serial rate : Int)
    (enabled : Bool) :
    (setRadioPowerRun false vendorOk serial enabled).logs = ["No Radio HAL exist"] ∧
    (setRadioPowerRun false vendorOk serial enabled).nullDerefHit = true ∧
    (setRadioPowerRun false vendorOk serial enabled).ret = none ∧
    (setCellInfoListRateRun false vendorOk serial rate).logs = ["No Radio HAL exist"] ∧
    (setCellInfoListRateRun false vendorOk serial rate).nullDerefHit = true ∧
    (setCellInfoListRateRun false vendorOk serial rate).ret = none := by
  exact ⟨rfl, rfl, rfl, rfl, rfl, rfl⟩

/-- When readiness never arrives the loop consumes all its fuel, polling and
sleeping once per entry. -/
theorem connectRetryAux_never_ready (ready : Nat → Bool)
    (h : ∀ i, ready i = false) :
    ∀ fuel polls sleeps, connectRetryAux ready fuel polls sleeps =
      { connected := false, polls := polls + fuel, sleeps := sleeps + fuel } := by
  intro fuel
  induction fuel with
  | zero => intro p s; simp [connectRetryAux]
  | succ f ih =>
    intro p s
    simp only [connectRetryAux, h p, Bool.false_eq_true, if_false, ih]
    simp only [LoopRun.mk.injEq, true_and]
    omega

/-- A poll that reports ready exits the loop at once, with no sleep. -/
theorem connectRetryAux_ready_now (ready : Nat → Bool) (f p s : Nat)
    (h : ready p = true) :
    connectRetryAux ready (f + 1) p s =
      { connected := true, polls := p + 1, sleeps := s } := by
  simp [connectRetryAux, h]

/-- The full loop under permanently false readiness: exactly
CONNECTION_RETRY_TIMES polls and as many sleeps, not connected. -/
theorem connectRetryLoop_never_ready (ready : Nat → Bool)
    (h : ∀ i, ready i = false) :
    connectRetryLoop ready =
      { connected := false, polls := CONNECTION_RETRY_TIMES,
        sleeps := CONNECTION_RETRY_TIMES } := by
  unfold connectRetryLoop
  rw [connectRetryAux_never_ready ready h]
  simp

/-- The full loop when the first poll reports ready: one poll, no sleep. -/
theorem connectRetryLoop_ready_first (ready : Nat → Bool) (h : ready 0 = true) :
    connectRetryLoop ready = { connected := true, polls := 1, sleeps := 0 } := by
  have h50 : CONNECTION_RETRY_TIMES = 49 + 1 := rfl
  unfold connectRetryLoop
  rw [h50, connectRetryAux_ready_now ready 49 0 0 h]

/-- C3: in StartSupplicant (and identically in StartAndConnectHostapd), if
the readiness check never reports true the loop polls exactly
CONNECTION_RETRY_TIMES times (sleeping CONNECTION_RETRY_INTERVAL_US after
each unsuccessful poll) and the function returns failure; if the very first
poll reports ready the function returns SUCCESS with a single poll and no
sleep. -/
theorem startup_retry_loop_bounds (e : WifiEnv) (he : HostapdEnv) (s : VState) :
    (e.suppPreReady = false → (∀ i, e.suppReady i = false) →
      e.suppInit = SUCCESS → e.suppDaemonStart = SUCCESS →
      (startSupplicant e s).result = ERROR_COMMAND_FAILED ∧
      (startSupplicant e s).polls = CONNECTION_RETRY_TIMES ∧
      (startSupplicant e s).sleeps = CONNECTION_RETRY_TIMES) ∧
    (e.suppPreReady = true → e.suppDaemonStart = SUCCESS →
      e.suppReady 0 = true →
      (startSupplicant e s).result = SUCCESS ∧
      (startSupplicant e s).polls = 1 ∧ (startSupplicant e s).sleeps = 0) ∧
    ((∀ i, he.ready i = false) → he.init = SUCCESS →
      (startAndConnectHostapd he).result = ERROR_COMMAND_FAILED ∧
      (startAndConnectHostapd he).polls = CONNECTION_RETRY_TIMES ∧
      (startAndConnectHostapd he).sleeps = CONNECTION_RETRY_TIMES) ∧
    (he.init = SUCCESS → he.ready 0 = true →
      (startAndConnectHostapd he).result = SUCCESS ∧
      (startAndConnectHostapd he).polls = 1 ∧
      (startAndConnectHostapd he).sleeps = 0) := by
  refine ⟨?_, ?_, ?_, ?_⟩
  · intro hpre hnever hinit hdaemon
    simp [startSupplicant, hpre, hinit, hdaemon,
      connectRetryLoop_never_ready e.suppReady hnever, CHECK_SUCCESS,
      ERROR_COMMAND_FAILED, SUCCESS]
  · intro hpre hdaemon hready
    simp [startSupplicant, hpre, hdaemon,
      connectRetryLoop_ready_first e.suppReady hready, CHECK_SUCCESS, SUCCESS]
  · intro hnever hinit
    simp [startAndConnectHostapd, hinit,
      connectRetryLoop_never_ready he.ready hnever, CHECK_SUCCESS,
      ERROR_COMMAND_FAILED, SUCCESS]
  · intro hinit hready
    simp [startAndConnectHostapd, hinit,
      connectRetryLoop_ready_first he.ready hready, CHECK_SUCCESS, SUCCESS]

/-- Witness for C3: the retry bounds at concrete environments. -/
theorem startup_retry_loop_bounds_witness :
    (startSupplicant envNeverReady idleVState).result = ERROR_COMMAND_FAILED ∧
    (startSupplicant envNeverReady idleVState).polls = CONNECTION_RETRY_TIMES ∧
    (startSupplicant envPreReadyOk idleVState).result = SUCCESS ∧
    (startSupplicant envPreReadyOk idleVState).sleeps = 0 ∧
    (startAndConnectHostapd hostapdNeverReady).polls = CONNECTION_RETRY_TIMES ∧
    (startAndConnectHostapd hostapdReadyNow).result = SUCCESS :=
  ⟨((startup_retry_loop_bounds envNeverReady hostapdNeverReady idleVState).1
      rfl (fun _ => rfl) rfl rfl).1,
   ((startup_retry_loop_bounds envNeverReady hostapdNeverReady idleVState).1
      rfl (fun _ => rfl) rfl rfl).2.1,
   ((startup_retry_loop_bounds envPreReadyOk hostapdReadyNow idleVState).2.1
      rfl rfl rfl).1,
   ((startup_retry_loop_bounds envPreReadyOk hostapdReadyNow idleVState).2.1
      rfl rfl rfl).2.2,
   ((startup_retry_loop_bounds envNeverReady hostapdNeverReady idleVState).2.2.1
      (fun _ => rfl) rfl).2.1,
   ((startup_retry_loop_bounds envPreReadyOk hostapdReadyNow idleVState).2.2.2
      rfl rfl).1⟩

/-- C6 counterexample: SetRadioPower performs the vendor call, the vendor
call fails, and the method still returns NS_OK (the success code) to its
caller: the failure is not returned up the call chain. -/
theorem setRadioPower_vendor_failure_not_returned :
    (setRadioPowerRun true false 1 true).vendorCalls =
      [ProxyCall.radioPowerCall 1 true false] ∧
    (setRadioPowerRun true false 1 true).ret = some NS_OK ∧
    NS_OK ≠ NS_ERROR_FAILURE :=
  ⟨rfl, rfl, by decide⟩

/-- StartSupplicant's returned status does not depend on the vendor state it
is run against. -/
theorem startSupplicant_result_state_free (e : WifiEnv) (s : VState) :
    (startSupplicant e s).result = startSupplicantResult e := by
  unfold startSupplicantResult startSupplicant
  cases hp : e.suppPreReady <;> simp only [hp, Bool.false_eq_true, if_false, if_true] <;>
    split_ifs <;> rfl

/-- The status StartWifi returns, as a function of the environment alone: the
first failing checked step's own status, with the discarded
ConfigChipAndCreateIface status absent from the formula. -/
theorem startWifi_result_formula (e : WifiEnv) (s : VState) :
    (startWifi e s).result =
      (if e.startModule ≠ SUCCESS then e.startModule
       else if !e.eventServiceOk then ERROR_COMMAND_FAILED
       else if startSupplicantResult e ≠ SUCCESS then startSupplicantResult e
       else if e.setupClientIface ≠ SUCCESS then e.setupClientIface
       else if e.setupStaIface ≠ SUCCESS then e.setupStaIface
       else CHECK_SUCCESS e.ifaceNameNonEmpty) := by
  unfold startWifi
  split_ifs <;>
    simp_all [startSupplicant_result_state_free] <;>
    split_ifs <;>
    simp_all [startSupplicant_result_state_free]

/-- C6 amended: checked vendor-call failures are returned verbatim with no
retry outside the two bounded startup polling loops, but not universally:
the nsRilWorker request forwarders always return NS_OK regardless of the
vendor call's outcome (SetGsmBroadcastConfig performs no vendor call at all),
and two WifiNative vendor-call statuses are discarded outright, namely
ConfigChipAndCreateIface in StartWifi and StopSingleScan in Connect; every
vendor call whose status the orchestration code checks, such as StopWifi's
four calls and Connect's ConnectToNetwork, has its failure returned
verbatim. -/
theorem vendor_failure_propagation_amended (e : WifiEnv) (s : VState)
    (ce : ConnectEnv) (vendorOk : Bool) (serial : Int) (enabled : Bool)
    (ranges : List Int) :
    (e.stopSuppDeinit ≠ SUCCESS → (stopWifi e s).result = e.stopSuppDeinit) ∧
    (e.stopSuppDeinit = SUCCESS → e.stopSuppDaemon ≠ SUCCESS →
      (stopWifi e s).result = e.stopSuppDaemon) ∧
    (e.stopSuppDeinit = SUCCESS → e.stopSuppDaemon = SUCCESS →
      e.tearDownClient ≠ SUCCESS → (stopWifi e s).result = e.tearDownClient) ∧
    (e.stopSuppDeinit = SUCCESS → e.stopSuppDaemon = SUCCESS →
      e.tearDownClient = SUCCESS → e.tearDownSta ≠ SUCCESS →
      (stopWifi e s).result = e.tearDownSta) ∧
    (e.stopSuppDeinit = SUCCESS → e.stopSuppDaemon = SUCCESS →
      e.tearDownClient = SUCCESS → e.tearDownSta = SUCCESS →
      (stopWifi e s).result = SUCCESS) ∧
    (ce.connectToNetwork ≠ SUCCESS →
      (connectWifi ce).result = ce.connectToNetwork) ∧
    (ce.connectToNetwork = SUCCESS → (connectWifi ce).result = SUCCESS) ∧
    (∀ x : Nat, (connectWifi { ce with stopSingleScan := x }).result =
      (connectWifi ce).result) ∧
    (∀ x : Nat, (startWifi { e with configChip := x } s).result =
      (startWifi e s).result) ∧
    (setRadioPowerRun true vendorOk serial enabled).ret = some NS_OK ∧
    (setGsmBroadcastConfigRun serial ranges).ret = some NS_OK := by
  refine ⟨?_, ?_, ?_, ?_, ?_, ?_, ?_, fun x => rfl, ?_, rfl, rfl⟩
  · intro h1
    simp [stopWifi, stopSupplicant, h1]
  · intro h1 h2
    simp [stopWifi, stopSupplicant, h1, h2]
  · intro h1 h2 h3
    simp [stopWifi, stopSupplicant, h1, h2, h3]
  · intro h1 h2 h3 h4
    simp [stopWifi, stopSupplicant, h1, h2, h3, h4]
  · intro h1 h2 h3 h4
    simp [stopWifi, stopSupplicant, h1, h2, h3, h4]
  · intro h1
    simp [connectWifi, h1]
  · intro h1
    simp [connectWifi, h1]
  · intro x
    rw [startWifi_result_formula, startWifi_result_formula]
    rfl

/-- Witness for C6 amended: a failing daemon stop is returned verbatim by
StopWifi, a failing ConnectToNetwork is returned verbatim by Connect, and
SetRadioPower returns NS_OK even when its vendor call fails. -/
theorem vendor_failure_propagation_amended_witness :
    (stopWifi envStopDaemonFails idleVState).result =
      envStopDaemonFails.stopSuppDaemon ∧
    (connectWifi { stopSingleScan := 13, connectToNetwork := 21 }).result = 21 ∧
    (setRadioPowerRun true false 2 false).ret = some NS_OK :=
  ⟨(vendor_failure_propagation_amended envStopDaemonFails idleVState
      { stopSingleScan := 13, connectToNetwork := 21 } false 2 false []).2.1
      rfl (by decide),
   (vendor_failure_propagation_amended envStopDaemonFails idleVState
      { stopSingleScan := 13, connectToNetwork := 21 } false 2 false
      []).2.2.2.2.2.1 (by decide),
   (vendor_failure_propagation_amended envStopDaemonFails idleVState
      { stopSingleScan := 13, connectToNetwork := 21 } false 2 false
      []).2.2.2.2.2.2.2.2.2.1⟩

/-- C4 counterexample: in an environment where the chip-configuration /
STA-interface-creation step fails and every other step succeeds, StartWifi
nevertheless returns SUCCESS and executes all the subsequent steps: the
failing step neither aborts the sequence nor propagates its error. -/
theorem startWifi_chip_config_failure_ignored :
    envConfigChipFails.configChip ≠ SUCCESS ∧
    (startWifi envConfigChipFails idleVState).result = SUCCESS ∧
    WStep.setupStaIface ∈ (startWifi envConfigChipFails idleVState).trace := by
  decide

/-- C4 amended: every step of StartWifi except the chip configuration aborts
the sequence with its own error code when it fails, executing none of the
subsequent steps (the failing wificond setup additionally runs its own
interface teardown before returning); the chip-configuration step's result is
discarded and execution always continues past it. -/
theorem startWifi_step_failure_aborts (e : WifiEnv) (s : VState) :
    (e.startModule ≠ SUCCESS →
      (startWifi e s).result = e.startModule ∧
      (startWifi e s).trace = [WStep.startModule]) ∧
    (e.startModule = SUCCESS → e.eventServiceOk = false →
      (startWifi e s).result = ERROR_COMMAND_FAILED ∧
      (startWifi e s).trace =
        [WStep.startModule, WStep.configChip, WStep.createEventService]) ∧
    (e.startModule = SUCCESS → e.eventServiceOk = true →
      startSupplicantResult e ≠ SUCCESS →
      (startWifi e s).result = startSupplicantResult e ∧
      (startWifi e s).trace =
        [WStep.startModule, WStep.configChip, WStep.createEventService,
         WStep.startSupplicant]) ∧
    (e.startModule = SUCCESS → e.eventServiceOk = true →
      startSupplicantResult e = SUCCESS → e.setupClientIface ≠ SUCCESS →
      (startWifi e s).result = e.setupClientIface ∧
      (startWifi e s).trace =
        [WStep.startModule, WStep.configChip, WStep.createEventService,
         WStep.startSupplicant, WStep.registerDeathHandler,
         WStep.setupClientIface, WStep.tearDownClientIface]) ∧
    (e.startModule = SUCCESS → e.eventServiceOk = true →
      startSupplicantResult e = SUCCESS → e.setupClientIface = SUCCESS →
      e.setupStaIface ≠ SUCCESS →
      (startWifi e s).result = e.setupStaIface ∧
      (startWifi e s).trace =
        [WStep.startModule, WStep.configChip, WStep.createEventService,
         WStep.startSupplicant, WStep.registerDeathHandler,
         WStep.setupClientIface, WStep.setupStaIface]) := by
  refine ⟨?_, ?_, ?_, ?_, ?_⟩
  · intro h1
    simp [startWifi, h1]
  · intro h1 h2
    simp [startWifi, h1, h2]
  · intro h1 h2 h3
    simp [startWifi, h1, h2, startSupplicant_result_state_free, h3]
  · intro h1 h2 h3 h4
    simp [startWifi, h1, h2, startSupplicant_result_state_free, h3, h4]
  · intro h1 h2 h3 h4 h5
    simp [startWifi, h1, h2, startSupplicant_result_state_free, h3, h4, h5]

/-- Witness for C4 amended: a failing module start and a failing supplicant
STA-interface setup each abort with their own code and trace. -/
theorem startWifi_step_failure_aborts_witness :
    (startWifi envStartModuleFails idleVState).result =
      envStartModuleFails.startModule ∧
    (startWifi envStartModuleFails idleVState).trace = [WStep.startModule] ∧
    (startWifi envSetupStaFails idleVState).result =
      envSetupStaFails.setupStaIface :=
  ⟨((startWifi_step_failure_aborts envStartModuleFails idleVState).1
      (by decide)).1,
   ((startWifi_step_failure_aborts envStartModuleFails idleVState).1
      (by decide)).2,
   ((startWifi_step_failure_aborts envSetupStaFails idleVState).2.2.2.2
      rfl rfl (by decide) rfl (by decide)).1⟩

/-- StartSupplicant never touches the driver-module component. -/
theorem startSupplicant_state_moduleLoaded (e : WifiEnv) (s : VState) :
    (startSupplicant e s).state.moduleLoaded = s.moduleLoaded := by
  unfold startSupplicant
  simp only [ne_eq]
  split_ifs <;> simp

/-- A successful StartSupplicant has started the supplicant daemon. -/
theorem startSupplicant_success_daemon (e : WifiEnv) (s : VState)
    (h : (startSupplicant e s).result = SUCCESS) :
    (startSupplicant e s).state.suppDaemonRunning = true := by
  unfold startSupplicant at h ⊢
  split_ifs at h ⊢ <;> simp_all

/-- A successful StopWifi leaves every modelled vendor component down. -/
theorem stopWifi_success_state (e : WifiEnv) (s : VState)
    (h : (stopWifi e s).result = SUCCESS) :
    (stopWifi e s).state = idleVState := by
  unfold stopWifi stopSupplicant at h ⊢
  split_ifs at h ⊢ <;> simp_all [idleVState]

/-- A successful StartWifi has loaded the driver module, started the
supplicant daemon, set up the wificond client interface and the supplicant
STA interface, and registered the supplicant death handler. -/
theorem startWifi_success_effects (e : WifiEnv) (s : VState)
    (h : (startWifi e s).result = SUCCESS) :
    (startWifi e s).state.moduleLoaded = true ∧
    (startWifi e s).state.suppDaemonRunning = true ∧
    (startWifi e s).state.wificondClientIface = true ∧
    (startWifi e s).state.suppStaIfaceSetup = true ∧
    (startWifi e s).state.deathHandlerRegistered = true := by
  unfold startWifi at h ⊢
  split_ifs at h ⊢ <;>
    simp_all [startSupplicant_state_moduleLoaded, startSupplicant_success_daemon,
      ERROR_COMMAND_FAILED, SUCCESS] <;>
    split_ifs at h ⊢ <;>
    simp_all [startSupplicant_state_moduleLoaded, startSupplicant_success_daemon]

/-- C7: when StartWifi from the idle vendor state returns SUCCESS and the
immediately following StopWifi also returns SUCCESS, the external vendor
state after StopWifi equals the idle state it started from; the start had
genuinely changed that state (module loaded, daemon running, interfaces set
up, death handler registered), so the round trip is a real undo. -/
theorem startWifi_stopWifi_roundtrip (e : WifiEnv)
    (h1 : (startWifi e idleVState).result = SUCCESS)
    (h2 : (stopWifi e (startWifi e idleVState).state).result = SUCCESS) :
    (stopWifi e (startWifi e idleVState).state).state = idleVState ∧
    (startWifi e idleVState).state.moduleLoaded = true ∧
    (startWifi e idleVState).state.suppDaemonRunning = true ∧
    (startWifi e idleVState).state.wificondClientIface = true ∧
    (startWifi e idleVState).state.suppStaIfaceSetup = true ∧
    (startWifi e idleVState).state.deathHandlerRegistered = true := by
  obtain ⟨ha, hb, hc, hd, he2⟩ := startWifi_success_effects e idleVState h1
  exact ⟨stopWifi_success_state e _ h2, ha, hb, hc, hd, he2⟩

/-- Witness for C7: the round trip at the all-success environment. -/
theorem startWifi_stopWifi_roundtrip_witness :
    (stopWifi envAllOk (startWifi envAllOk idleVState).state).state = idleVState ∧
    (startWifi envAllOk idleVState).state.moduleLoaded = true :=
  ⟨(startWifi_stopWifi_roundtrip envAllOk (by decide) (by decide)).1,
   (startWifi_stopWifi_roundtrip envAllOk (by decide) (by decide)).2.1⟩
